import Mathlib

set_option maxRecDepth 8000

/-!
Shallow embedding of the SD card driver in `hello-pic/SDCard.c` of the
EMUZ80-LED repository, together with theorems checking the repository's
natural-language specification against the code.

The SPI transport (an external collaborator) is modelled by an explicit
state: an infinite stream of bytes that successive receive operations
consume, a cursor into that stream, and a trace of transport events
(newest first) used to reason about transaction begin/end pairing and
reconfiguration.  Machine integers are modelled as `Nat` with explicit
`% 256`, `% 65536`, `% 2^32` where the C types truncate.
-/

/-- `SDCARD_SUCCESS` result code from SDCard.h. -/
def SDCARD_SUCCESS : Nat := 0

/-- `SDCARD_TIMEOUT` result code from SDCard.h. -/
def SDCARD_TIMEOUT : Nat := 1

/-- `SDCARD_NOTSUPPORTED` result code from SDCard.h. -/
def SDCARD_NOTSUPPORTED : Nat := 2

/-- `SDCARD_BADRESPONSE` result code from SDCard.h. -/
def SDCARD_BADRESPONSE : Nat := 3

/-- `SDCARD_CRC_ERROR` result code from SDCard.h (declared, never returned). -/
def SDCARD_CRC_ERROR : Nat := 4

/-- `SDCARD_R1_IDLE_STATE` status bit from SDCard.h. -/
def SDCARD_R1_IDLE_STATE : Nat := 1

/-- Events logged by the modelled SPI transport, newest first. -/
inductive SPIEvent where
  /-- `SPI_begin()` transport power-up. -/
  | spiBegin : SPIEvent
  /-- `SPI_begin_transaction()`. -/
  | beginTrans : SPIEvent
  /-- `SPI_end_transaction()`. -/
  | endTrans : SPIEvent
  /-- `SPI_dummy_clocks(n)`. -/
  | dummy (n : Nat) : SPIEvent
  /-- `SPI_send(buf, n)` logged with the byte count. -/
  | send (n : Nat) : SPIEvent
  /-- `SPI_receive_byte` / `SPI_receive(buf, n)` logged with the byte count. -/
  | recv (n : Nat) : SPIEvent
  /-- `SPI_configure(clock_delay, ...)` logged with the clock delay. -/
  | configure (d : Nat) : SPIEvent
deriving DecidableEq

/-- State of the modelled SPI transport: the stream of bytes the card will
emit (indexed by receive order), the cursor of the next byte to receive, and
the event trace (newest first). -/
structure SPIState where
  stream : Nat → Nat
  pos : Nat
  trace : List SPIEvent

/-- `SPI_begin()`. -/
def SPI_begin (s : SPIState) : SPIState :=
  { s with trace := SPIEvent.spiBegin :: s.trace }

/-- `SPI_begin_transaction()`. -/
def SPI_begin_transaction (s : SPIState) : SPIState :=
  { s with trace := SPIEvent.beginTrans :: s.trace }

/-- `SPI_end_transaction()`. -/
def SPI_end_transaction (s : SPIState) : SPIState :=
  { s with trace := SPIEvent.endTrans :: s.trace }

/-- `SPI_dummy_clocks(n)`: emits idle clocks, consumes no received bytes. -/
def SPI_dummy_clocks (n : Nat) (s : SPIState) : SPIState :=
  { s with trace := SPIEvent.dummy n :: s.trace }

/-- `SPI_send(buf, n)`: transmits bytes, consumes no received bytes. -/
def SPI_send (bs : List Nat) (s : SPIState) : SPIState :=
  { s with trace := SPIEvent.send bs.length :: s.trace }

/-- `SPI_configure(clock_delay, SPI_MSBFIRST, SPI_MODE0)`. -/
def SPI_configure (d : Nat) (s : SPIState) : SPIState :=
  { s with trace := SPIEvent.configure d :: s.trace }

/-- `SPI_receive_byte()`: returns the next byte of the stream (a `uint8_t`,
hence `% 256`) and advances the cursor. -/
def SPI_receive_byte (s : SPIState) : Nat × SPIState :=
  (s.stream s.pos % 256,
   { s with pos := s.pos + 1, trace := SPIEvent.recv 1 :: s.trace })

/-- `SPI_receive(buf, n)`: receives `n` consecutive bytes of the stream. -/
def SPI_receive (n : Nat) (s : SPIState) : List Nat × SPIState :=
  ((List.range n).map (fun i => s.stream (s.pos + i) % 256),
   { s with pos := s.pos + n, trace := SPIEvent.recv n :: s.trace })

/-- `static struct SDCard { uint8_t clock_delay; uint16_t timeout; }`. -/
structure SDCard where
  clock_delay : Nat
  timeout : Nat
deriving DecidableEq

/-- One round of the inner 8-iteration loop of `SDCard_crc`:
`if (crc & 0x80) crc ^= 0x89; crc <<= 1;` on a `uint8_t`. -/
def crcRound (crc : Nat) : Nat :=
  (if crc &&& 0x80 ≠ 0 then crc ^^^ 0x89 else crc) * 2 % 256

/-- One iteration of the outer loop of `SDCard_crc`:
`crc ^= *p++;` followed by 8 rounds of `crcRound`. -/
def crcByte (crc b : Nat) : Nat :=
  crcRound^[8] (crc ^^^ b % 256)

/-- `uint8_t SDCard_crc(void *buf, int count)`: bit-serial CRC over the first
`count` bytes of `buf` with polynomial 0x89. -/
def SDCard_crc (buf : List Nat) (count : Nat) : Nat :=
  (buf.take count).foldl crcByte 0

/-- The 6-byte command frame built at the top of `__SDCard_command_r1`:
`buf[0] = command | 0x40`, `buf[1..4]` = 32-bit argument big-endian,
`buf[5] = SDCard_crc(buf, 5) | 0x01`. -/
def buildFrame (command argument : Nat) : List Nat :=
  let a := argument % 2 ^ 32
  let b0 := command % 256 ||| 0x40
  let b1 := a / 2 ^ 24 % 256
  let b2 := a / 2 ^ 16 % 256
  let b3 := a / 2 ^ 8 % 256
  let b4 := a % 256
  [b0, b1, b2, b3, b4, SDCard_crc [b0, b1, b2, b3, b4] 5 ||| 0x01]

/-- The R1 polling loop of `__SDCard_command_r1` with `n + 1` receive attempts
remaining: `do { response = SPI_receive_byte(); } while ((response & 0x80) && 0 < --timeout);`
unrolled on the number of further receives the `uint16_t` counter allows. -/
def r1PollGo : Nat → SPIState → Nat × SPIState
  | 0, s => SPI_receive_byte s
  | n + 1, s =>
    if (SPI_receive_byte s).1 &&& 0x80 ≠ 0 then r1PollGo n (SPI_receive_byte s).2
    else SPI_receive_byte s

/-- The R1 polling loop started with `uint16_t timeout = t`.  The counter is
decremented before being compared with zero, so a starting value of `0` wraps
to 65535 and allows 65536 receives in total, while a starting value `t ≥ 1`
allows exactly `t` receives. -/
def r1Poll (t : Nat) (s : SPIState) : Nat × SPIState :=
  if t % 65536 = 0 then r1PollGo 65535 s else r1PollGo (t % 65536 - 1) s

/-- Effective number of receive attempts the R1 poll makes at most when the
`uint16_t` counter starts at `t`: 65536 when `t` truncates to 0 (the
pre-decrement wraps), otherwise the truncated value itself. -/
def pollBound (t : Nat) : Nat :=
  if t % 65536 = 0 then 65536 else t % 65536

/-- Transport state after the `SPI_begin_transaction`, `SPI_dummy_clocks(1)`
and 6-byte `SPI_send` at the head of `__SDCard_command_r1`, before polling. -/
def cmdPre (command argument : Nat) (s : SPIState) : SPIState :=
  SPI_send (buildFrame command argument) (SPI_dummy_clocks 1 (SPI_begin_transaction s))

/-- `static int __SDCard_command_r1(uint8_t command, uint32_t argument, uint8_t *r1)`:
builds the frame, begins a transaction, emits one dummy clock, sends the frame,
polls for a response with the high bit clear bounded by `ctx->timeout`, stores
the last byte observed, and returns `SDCARD_TIMEOUT` or `SDCARD_SUCCESS`.
Returns (result, `*r1`, transport state); does not end the transaction. -/
def __SDCard_command_r1 (ctx : SDCard) (command argument : Nat) (s : SPIState) :
    Nat × Nat × SPIState :=
  let p := r1Poll ctx.timeout (cmdPre command argument s)
  if p.1 &&& 0x80 ≠ 0 then (SDCARD_TIMEOUT, p.1, p.2) else (SDCARD_SUCCESS, p.1, p.2)

/-- `int SDCard_command(uint8_t command, uint32_t argument, void *response, int length)`:
runs the R1 exchange; on failure ends the transaction and propagates the error,
the response buffer holding only the stored R1 byte; on success receives
`length - 1` further bytes, ends the transaction, and returns success.
Returns (result, bytes written to the response buffer, transport state). -/
def SDCard_command (ctx : SDCard) (command argument : Nat) (length : Nat) (s : SPIState) :
    Nat × List Nat × SPIState :=
  let e := __SDCard_command_r1 ctx command argument s
  if e.1 ≠ SDCARD_SUCCESS then
    (e.1, [e.2.1], SPI_end_transaction e.2.2)
  else
    let rb := SPI_receive (length - 1) e.2.2
    (SDCARD_SUCCESS, e.2.1 :: rb.1, SPI_end_transaction rb.2)

/-- The data-token polling loop of `SDCard_read512`:
`for (int i = 0; i < 3000; i++) { response = SPI_receive_byte(); if (response != 0xff) break; }`
with `n` iterations remaining and `response` the value the variable holds on
entry (it is returned unchanged when no iteration remains). -/
def readPoll (response : Nat) : Nat → SPIState → Nat × SPIState
  | 0, s => (response, s)
  | n + 1, s =>
    if (SPI_receive_byte s).1 ≠ 0xff then SPI_receive_byte s
    else readPoll (SPI_receive_byte s).1 n (SPI_receive_byte s).2

/-- `int SDCard_read512(uint32_t addr, void *buf)`: issues CMD17 via the R1
exchange, propagates its error, rejects a non-zero status as bad-response,
polls up to 3000 bytes for a non-0xff byte, times out if none is found,
receives 512 data bytes if the byte is the 0xfe start token, otherwise
bad-response; every path ends the transaction exactly once (`goto done`).
Returns (result, data bytes written to `buf`, transport state). -/
def SDCard_read512 (ctx : SDCard) (addr : Nat) (s : SPIState) :
    Nat × List Nat × SPIState :=
  let e := __SDCard_command_r1 ctx 17 addr s
  if e.1 ≠ SDCARD_SUCCESS then (e.1, [], SPI_end_transaction e.2.2)
  else if e.2.1 ≠ 0 then (SDCARD_BADRESPONSE, [], SPI_end_transaction e.2.2)
  else
    let t := readPoll e.2.1 3000 e.2.2
    if t.1 = 0xff then (SDCARD_TIMEOUT, [], SPI_end_transaction t.2)
    else if t.1 = 0xfe then
      let rb := SPI_receive 512 t.2
      (SDCARD_SUCCESS, rb.1, SPI_end_transaction rb.2)
    else (SDCARD_BADRESPONSE, [], SPI_end_transaction t.2)

/-- Overwriting the front of the 5-byte `buf` array of `SDCard_init` with the
bytes a command wrote: positions beyond the written bytes keep their value. -/
def updBuf (old new : List Nat) : List Nat :=
  new ++ old.drop new.length

/-- One iteration body of the ACMD41 loop of `SDCard_init`:
`SDCard_command(55, 0, buf, 1); SDCard_command(41, 1UL << 30, buf, 5);`
threading the 5-byte buffer and the transport state. -/
def acmd41Attempt (ctx : SDCard) (p : List Nat × SPIState) : List Nat × SPIState :=
  let c1 := SDCard_command ctx 55 0 1 p.2
  let b1 := updBuf p.1 c1.2.1
  let c2 := SDCard_command ctx 41 (2 ^ 30) 5 c1.2.2
  (updBuf b1 c2.2.1, c2.2.2)

/-- The ACMD41 loop of `SDCard_init`:
`for (int i = 0; i < 3000; i++) { ...attempt...; if (buf[0] == 0x00) break; }`
with `n` iterations remaining. -/
def acmd41Loop (ctx : SDCard) : Nat → List Nat × SPIState → List Nat × SPIState
  | 0, p => p
  | n + 1, p =>
    if (acmd41Attempt ctx p).1.headD 0 = 0 then acmd41Attempt ctx p
    else acmd41Loop ctx n (acmd41Attempt ctx p)

/-- The tail of `SDCard_init` after the ACMD41 loop: the post-loop status
check, the CMD58 OCR read with its three checks, and the speed-up
`SPI_configure(ctx->clock_delay, ...)` on the success path. -/
def SDCard_init_after (ctx : SDCard) (buf : List Nat) (s : SPIState) :
    Nat × SDCard × SPIState :=
  if buf.headD 0 ≠ 0 then (SDCARD_TIMEOUT, ctx, s)
  else
    let c := SDCard_command ctx 58 0 5 s
    let b := updBuf buf c.2.1
    if b.headD 0 &&& 0xfe ≠ 0 then (SDCARD_BADRESPONSE, ctx, c.2.2)
    else if b.getD 1 0 &&& 0x40 = 0 then (SDCARD_NOTSUPPORTED, ctx, c.2.2)
    else if b.getD 1 0 &&& 0x80 = 0 then (SDCARD_BADRESPONSE, ctx, c.2.2)
    else (SDCARD_SUCCESS, ctx, SPI_configure ctx.clock_delay c.2.2)

/-- `int SDCard_init(uint16_t initial_clock_delay, uint16_t clock_delay, uint16_t timeout)`:
stores the clock delay (a `uint16_t` parameter truncated into the `uint8_t`
context field, hence `% 256`) and the timeout, configures and pulses the bus,
then runs CMD0, CMD8, the ACMD41 loop and the CMD58 tail.
Returns (result, session context, transport state). -/
def SDCard_init (initial_clock_delay clock_delay timeout : Nat) (s : SPIState) :
    Nat × SDCard × SPIState :=
  let ctx : SDCard := ⟨clock_delay % 256, timeout % 65536⟩
  let s1 := SPI_end_transaction (SPI_dummy_clocks 10 (SPI_begin_transaction
    (SPI_configure (initial_clock_delay % 65536) (SPI_begin s))))
  let c0 := SDCard_command ctx 0 0 1 s1
  let b0 := updBuf (List.replicate 5 0) c0.2.1
  if b0.headD 0 ≠ SDCARD_R1_IDLE_STATE then (SDCARD_TIMEOUT, ctx, c0.2.2)
  else
    let c8 := SDCard_command ctx 8 0x1aa 5 c0.2.2
    let b8 := updBuf b0 c8.2.1
    if b8.headD 0 ≠ SDCARD_R1_IDLE_STATE ∨ b8.getD 3 0 &&& 0x01 ≠ 0x01 ∨ b8.getD 4 0 ≠ 0xaa then
      (SDCARD_NOTSUPPORTED, ctx, c8.2.2)
    else
      let l := acmd41Loop ctx 3000 (b8, c8.2.2)
      SDCard_init_after ctx l.1 l.2

/-- Number of `SPI_begin_transaction` events in a trace. -/
def countBegin : List SPIEvent → Nat
  | [] => 0
  | SPIEvent.beginTrans :: t => countBegin t + 1
  | _ :: t => countBegin t

/-- Number of `SPI_end_transaction` events in a trace. -/
def countEnd : List SPIEvent → Nat
  | [] => 0
  | SPIEvent.endTrans :: t => countEnd t + 1
  | _ :: t => countEnd t

/-- The clock delay of the most recent `SPI_configure` call in a trace
(newest first), if any. -/
def latestConfig : List SPIEvent → Option Nat
  | [] => none
  | SPIEvent.configure d :: _ => some d
  | _ :: t => latestConfig t

/-- Concrete transport: the card only ever emits the bus-idle byte 0xff
(every byte has the high bit set). -/
def sFF : SPIState := ⟨fun _ => 0xff, 0, []⟩

/-- Concrete transport: one all-zero status byte, then endless 0xff filler. -/
def sR1 : SPIState := ⟨fun i => if i = 0 then 0 else 0xff, 0, []⟩

/-- Concrete transport: a zero status byte, the 0xfe data-start token, then
zero data bytes. -/
def sTok : SPIState := ⟨fun i => if i = 1 then 0xfe else 0, 0, []⟩

/-- Concrete transport: a 0x01 idle status byte, then all-zero bytes (the
CMD55/CMD41 exchange succeeds with status 0 on the first attempt). -/
def sAcc : SPIState := ⟨fun i => if i = 0 then 1 else 0, 0, []⟩

/-- Concrete transport driving `SDCard_init` through a fully successful
handshake: CMD0 answers 0x01; CMD8 answers 01 00 00 01 aa; CMD55 answers
0x01; CMD41 answers 00 (with four payload bytes); CMD58 answers 00 with OCR
byte 0xc0 (CCS and power-up bits set). -/
def sInitOk : SPIState :=
  ⟨fun i => [1, 1, 0, 0, 1, 0xaa, 1, 0, 0, 0, 0, 0, 0, 0xc0, 0, 0, 0].getD i 0, 0, []⟩

/-! ### Basic lemmas about the transport model -/

@[simp] lemma SPI_receive_byte_fst (s : SPIState) :
    (SPI_receive_byte s).1 = s.stream s.pos % 256 := rfl

@[simp] lemma SPI_receive_byte_pos (s : SPIState) :
    (SPI_receive_byte s).2.pos = s.pos + 1 := rfl

@[simp] lemma SPI_receive_byte_stream (s : SPIState) :
    (SPI_receive_byte s).2.stream = s.stream := rfl

@[simp] lemma SPI_receive_byte_trace (s : SPIState) :
    (SPI_receive_byte s).2.trace = SPIEvent.recv 1 :: s.trace := rfl

@[simp] lemma SPI_receive_fst (n : Nat) (s : SPIState) :
    (SPI_receive n s).1 = (List.range n).map (fun i => s.stream (s.pos + i) % 256) := rfl

@[simp] lemma SPI_receive_pos (n : Nat) (s : SPIState) :
    (SPI_receive n s).2.pos = s.pos + n := rfl

@[simp] lemma SPI_receive_stream (n : Nat) (s : SPIState) :
    (SPI_receive n s).2.stream = s.stream := rfl

@[simp] lemma SPI_receive_trace (n : Nat) (s : SPIState) :
    (SPI_receive n s).2.trace = SPIEvent.recv n :: s.trace := rfl

@[simp] lemma countBegin_nil : countBegin [] = 0 := rfl

@[simp] lemma countBegin_spiBegin (t : List SPIEvent) :
    countBegin (SPIEvent.spiBegin :: t) = countBegin t := rfl

@[simp] lemma countBegin_beginTrans (t : List SPIEvent) :
    countBegin (SPIEvent.beginTrans :: t) = countBegin t + 1 := rfl

@[simp] lemma countBegin_endTrans (t : List SPIEvent) :
    countBegin (SPIEvent.endTrans :: t) = countBegin t := rfl

@[simp] lemma countBegin_dummy (n : Nat) (t : List SPIEvent) :
    countBegin (SPIEvent.dummy n :: t) = countBegin t := rfl

@[simp] lemma countBegin_send (n : Nat) (t : List SPIEvent) :
    countBegin (SPIEvent.send n :: t) = countBegin t := rfl

@[simp] lemma countBegin_recv (n : Nat) (t : List SPIEvent) :
    countBegin (SPIEvent.recv n :: t) = countBegin t := rfl

@[simp] lemma countBegin_configure (d : Nat) (t : List SPIEvent) :
    countBegin (SPIEvent.configure d :: t) = countBegin t := rfl

@[simp] lemma countEnd_nil : countEnd [] = 0 := rfl

@[simp] lemma countEnd_spiBegin (t : List SPIEvent) :
    countEnd (SPIEvent.spiBegin :: t) = countEnd t := rfl

@[simp] lemma countEnd_beginTrans (t : List SPIEvent) :
    countEnd (SPIEvent.beginTrans :: t) = countEnd t := rfl

@[simp] lemma countEnd_endTrans (t : List SPIEvent) :
    countEnd (SPIEvent.endTrans :: t) = countEnd t + 1 := rfl

@[simp] lemma countEnd_dummy (n : Nat) (t : List SPIEvent) :
    countEnd (SPIEvent.dummy n :: t) = countEnd t := rfl

@[simp] lemma countEnd_send (n : Nat) (t : List SPIEvent) :
    countEnd (SPIEvent.send n :: t) = countEnd t := rfl

@[simp] lemma countEnd_recv (n : Nat) (t : List SPIEvent) :
    countEnd (SPIEvent.recv n :: t) = countEnd t := rfl

@[simp] lemma countEnd_configure (d : Nat) (t : List SPIEvent) :
    countEnd (SPIEvent.configure d :: t) = countEnd t := rfl

/-! ### Characterization of the R1 polling loop -/

lemma r1PollGo_stream : ∀ (n : Nat) (s : SPIState), (r1PollGo n s).2.stream = s.stream := by
  intro n
  induction n with
  | zero => intro s; rfl
  | succ n ih =>
    intro s
    simp only [r1PollGo]
    split
    · rw [ih]; simp
    · simp

lemma r1PollGo_counts : ∀ (n : Nat) (s : SPIState),
    countBegin (r1PollGo n s).2.trace = countBegin s.trace ∧
    countEnd (r1PollGo n s).2.trace = countEnd s.trace := by
  intro n
  induction n with
  | zero => intro s; simp [r1PollGo]
  | succ n ih =>
    intro s
    simp only [r1PollGo]
    split
    · rw [(ih _).1, (ih _).2]; simp
    · simp

lemma r1PollGo_pos_le : ∀ (n : Nat) (s : SPIState),
    (r1PollGo n s).2.pos ≤ s.pos + n + 1 := by
  intro n
  induction n with
  | zero => intro s; simp [r1PollGo]
  | succ n ih =>
    intro s
    simp only [r1PollGo]
    split
    · calc (r1PollGo n (SPI_receive_byte s).2).2.pos
          ≤ (SPI_receive_byte s).2.pos + n + 1 := ih _
        _ ≤ s.pos + (n + 1) + 1 := by simp; omega
    · simp

lemma r1PollGo_high : ∀ (n : Nat) (s : SPIState),
    (∀ i, s.stream i % 256 &&& 0x80 ≠ 0) →
    (r1PollGo n s).1 = s.stream (s.pos + n) % 256 ∧
    (r1PollGo n s).2.pos = s.pos + n + 1 := by
  intro n
  induction n with
  | zero => intro s h; simp [r1PollGo]
  | succ n ih =>
    intro s h
    simp only [r1PollGo]
    rw [if_pos (by simpa using h s.pos)]
    obtain ⟨h1, h2⟩ := ih (SPI_receive_byte s).2 (by simpa using h)
    rw [h1, h2]
    simp
    constructor
    · ring_nf
    · omega

lemma r1PollGo_find : ∀ (k n : Nat) (s : SPIState), k ≤ n →
    (∀ i, i < k → s.stream (s.pos + i) % 256 &&& 0x80 ≠ 0) →
    s.stream (s.pos + k) % 256 &&& 0x80 = 0 →
    (r1PollGo n s).1 = s.stream (s.pos + k) % 256 ∧
    (r1PollGo n s).2.pos = s.pos + k + 1 := by
  intro k
  induction k with
  | zero =>
    intro n s _ _ hlow
    cases n with
    | zero => simp [r1PollGo]
    | succ n =>
      simp only [r1PollGo]
      rw [if_neg (by simpa using hlow)]
      simp
  | succ k ih =>
    intro n s hkn hhigh hlow
    cases n with
    | zero => omega
    | succ n =>
      simp only [r1PollGo]
      rw [if_pos (by simpa using hhigh 0 (by omega))]
      obtain ⟨h1, h2⟩ := ih n (SPI_receive_byte s).2 (by omega)
        (by intro i hi; simpa [Nat.add_assoc, Nat.add_comm 1 i] using hhigh (i + 1) (by omega))
        (by simpa [Nat.add_assoc, Nat.add_comm 1 k] using hlow)
      rw [h1, h2]
      simp
      constructor
      · ring_nf
      · omega

/-! ### Characterization of the block-read token polling loop -/

lemma readPoll_stream : ∀ (n r : Nat) (s : SPIState), (readPoll r n s).2.stream = s.stream := by
  intro n
  induction n with
  | zero => intro r s; rfl
  | succ n ih =>
    intro r s
    simp only [readPoll]
    split
    · simp
    · rw [ih]; simp

lemma readPoll_counts : ∀ (n r : Nat) (s : SPIState),
    countBegin (readPoll r n s).2.trace = countBegin s.trace ∧
    countEnd (readPoll r n s).2.trace = countEnd s.trace := by
  intro n
  induction n with
  | zero => intro r s; simp [readPoll]
  | succ n ih =>
    intro r s
    simp only [readPoll]
    split
    · simp
    · rw [(ih _ _).1, (ih _ _).2]; simp

lemma readPoll_pos_le : ∀ (n r : Nat) (s : SPIState),
    (readPoll r n s).2.pos ≤ s.pos + n := by
  intro n
  induction n with
  | zero => intro r s; simp [readPoll]
  | succ n ih =>
    intro r s
    simp only [readPoll]
    split
    · simp
    · calc (readPoll ((SPI_receive_byte s).1) n (SPI_receive_byte s).2).2.pos
          ≤ (SPI_receive_byte s).2.pos + n := ih _ _
        _ ≤ s.pos + (n + 1) := by simp; omega

lemma readPoll_ff : ∀ (n r : Nat) (s : SPIState),
    (∀ i, i < n → s.stream (s.pos + i) % 256 = 0xff) →
    (readPoll r n s).2.pos = s.pos + n ∧
    (readPoll r n s).2.stream = s.stream ∧
    (readPoll r n s).1 = (if n = 0 then r else 0xff) := by
  intro n
  induction n with
  | zero => intro r s _; simp [readPoll]
  | succ n ih =>
    intro r s h
    simp only [readPoll]
    rw [if_neg (by simpa using h 0 (by omega))]
    obtain ⟨h1, h2, h3⟩ := ih (SPI_receive_byte s).1 (SPI_receive_byte s).2
      (by intro i hi; simpa [Nat.add_assoc, Nat.add_comm 1 i] using h (i + 1) (by omega))
    refine ⟨?_, ?_, ?_⟩
    · rw [h1]; simp; omega
    · rw [h2]; simp
    · rw [h3]
      split
      · simpa using h 0 (by omega)
      · rfl

lemma readPoll_find : ∀ (k n r : Nat) (s : SPIState), k < n →
    (∀ i, i < k → s.stream (s.pos + i) % 256 = 0xff) →
    s.stream (s.pos + k) % 256 ≠ 0xff →
    (readPoll r n s).1 = s.stream (s.pos + k) % 256 ∧
    (readPoll r n s).2.pos = s.pos + k + 1 ∧
    (readPoll r n s).2.stream = s.stream := by
  intro k
  induction k with
  | zero =>
    intro n r s hkn _ hb
    cases n with
    | zero => omega
    | succ n =>
      simp only [readPoll]
      rw [if_pos (by simpa using hb)]
      simp
  | succ k ih =>
    intro n r s hkn hff hb
    cases n with
    | zero => omega
    | succ n =>
      simp only [readPoll]
      rw [if_neg (by simpa using hff 0 (by omega))]
      obtain ⟨h1, h2, h3⟩ := ih n (SPI_receive_byte s).1 (SPI_receive_byte s).2 (by omega)
        (by intro i hi; simpa [Nat.add_assoc, Nat.add_comm 1 i] using hff (i + 1) (by omega))
        (by simpa [Nat.add_assoc, Nat.add_comm 1 k] using hb)
      rw [h1, h2, h3]
      simp
      refine ⟨by ring_nf, by omega⟩

/-! ### Lemmas about the R1 exchange and `SDCard_command` -/

@[simp] lemma SPI_begin_pos (s : SPIState) : (SPI_begin s).pos = s.pos := rfl

@[simp] lemma SPI_begin_stream (s : SPIState) : (SPI_begin s).stream = s.stream := rfl

@[simp] lemma SPI_begin_trace (s : SPIState) :
    (SPI_begin s).trace = SPIEvent.spiBegin :: s.trace := rfl

@[simp] lemma SPI_begin_transaction_pos (s : SPIState) :
    (SPI_begin_transaction s).pos = s.pos := rfl

@[simp] lemma SPI_begin_transaction_stream (s : SPIState) :
    (SPI_begin_transaction s).stream = s.stream := rfl

@[simp] lemma SPI_begin_transaction_trace (s : SPIState) :
    (SPI_begin_transaction s).trace = SPIEvent.beginTrans :: s.trace := rfl

@[simp] lemma SPI_end_transaction_pos (s : SPIState) :
    (SPI_end_transaction s).pos = s.pos := rfl

@[simp] lemma SPI_end_transaction_stream (s : SPIState) :
    (SPI_end_transaction s).stream = s.stream := rfl

@[simp] lemma SPI_end_transaction_trace (s : SPIState) :
    (SPI_end_transaction s).trace = SPIEvent.endTrans :: s.trace := rfl

@[simp] lemma SPI_dummy_clocks_pos (n : Nat) (s : SPIState) :
    (SPI_dummy_clocks n s).pos = s.pos := rfl

@[simp] lemma SPI_dummy_clocks_stream (n : Nat) (s : SPIState) :
    (SPI_dummy_clocks n s).stream = s.stream := rfl

@[simp] lemma SPI_dummy_clocks_trace (n : Nat) (s : SPIState) :
    (SPI_dummy_clocks n s).trace = SPIEvent.dummy n :: s.trace := rfl

@[simp] lemma SPI_send_pos (bs : List Nat) (s : SPIState) : (SPI_send bs s).pos = s.pos := rfl

@[simp] lemma SPI_send_stream (bs : List Nat) (s : SPIState) :
    (SPI_send bs s).stream = s.stream := rfl

@[simp] lemma SPI_send_trace (bs : List Nat) (s : SPIState) :
    (SPI_send bs s).trace = SPIEvent.send bs.length :: s.trace := rfl

@[simp] lemma SPI_configure_pos (d : Nat) (s : SPIState) : (SPI_configure d s).pos = s.pos := rfl

@[simp] lemma SPI_configure_stream (d : Nat) (s : SPIState) :
    (SPI_configure d s).stream = s.stream := rfl

@[simp] lemma SPI_configure_trace (d : Nat) (s : SPIState) :
    (SPI_configure d s).trace = SPIEvent.configure d :: s.trace := rfl

@[simp] lemma cmdPre_pos (c a : Nat) (s : SPIState) : (cmdPre c a s).pos = s.pos := rfl

@[simp] lemma cmdPre_stream (c a : Nat) (s : SPIState) : (cmdPre c a s).stream = s.stream := rfl

@[simp] lemma cmdPre_trace (c a : Nat) (s : SPIState) :
    (cmdPre c a s).trace =
      SPIEvent.send (buildFrame c a).length :: SPIEvent.dummy 1 ::
        SPIEvent.beginTrans :: s.trace := rfl

lemma pollBound_pos (t : Nat) : 1 ≤ pollBound t := by
  unfold pollBound
  split
  · omega
  · omega

lemma pollBound_of_lt (t : Nat) (h1 : 1 ≤ t) (h2 : t < 65536) : pollBound t = t := by
  unfold pollBound
  rw [Nat.mod_eq_of_lt h2, if_neg (by omega)]

lemma r1Poll_eq_go (t : Nat) (s : SPIState) : r1Poll t s = r1PollGo (pollBound t - 1) s := by
  unfold r1Poll pollBound
  split
  · rfl
  · rfl

lemma r1Poll_stream (t : Nat) (s : SPIState) : (r1Poll t s).2.stream = s.stream := by
  rw [r1Poll_eq_go]; exact r1PollGo_stream _ _

lemma r1Poll_counts (t : Nat) (s : SPIState) :
    countBegin (r1Poll t s).2.trace = countBegin s.trace ∧
    countEnd (r1Poll t s).2.trace = countEnd s.trace := by
  rw [r1Poll_eq_go]; exact r1PollGo_counts _ _

lemma r1Poll_pos_le (t : Nat) (s : SPIState) : (r1Poll t s).2.pos ≤ s.pos + pollBound t := by
  rw [r1Poll_eq_go]
  have h := r1PollGo_pos_le (pollBound t - 1) s
  have := pollBound_pos t
  omega

lemma r1Poll_high (t : Nat) (s : SPIState) (h : ∀ i, s.stream i % 256 &&& 0x80 ≠ 0) :
    (r1Poll t s).1 = s.stream (s.pos + (pollBound t - 1)) % 256 ∧
    (r1Poll t s).2.pos = s.pos + pollBound t := by
  rw [r1Poll_eq_go]
  obtain ⟨h1, h2⟩ := r1PollGo_high (pollBound t - 1) s h
  have := pollBound_pos t
  exact ⟨h1, by omega⟩

lemma r1Poll_find (t k : Nat) (s : SPIState) (hk : k < pollBound t)
    (hhigh : ∀ i, i < k → s.stream (s.pos + i) % 256 &&& 0x80 ≠ 0)
    (hlow : s.stream (s.pos + k) % 256 &&& 0x80 = 0) :
    (r1Poll t s).1 = s.stream (s.pos + k) % 256 ∧
    (r1Poll t s).2.pos = s.pos + k + 1 := by
  rw [r1Poll_eq_go]
  exact r1PollGo_find k (pollBound t - 1) s (by omega) hhigh hlow

lemma cmd_r1_def (ctx : SDCard) (c a : Nat) (s : SPIState) :
    __SDCard_command_r1 ctx c a s =
      if (r1Poll ctx.timeout (cmdPre c a s)).1 &&& 0x80 ≠ 0 then
        (SDCARD_TIMEOUT, r1Poll ctx.timeout (cmdPre c a s))
      else
        (SDCARD_SUCCESS, r1Poll ctx.timeout (cmdPre c a s)) := rfl

lemma cmd_r1_state (ctx : SDCard) (c a : Nat) (s : SPIState) :
    (__SDCard_command_r1 ctx c a s).2 = r1Poll ctx.timeout (cmdPre c a s) := by
  rw [cmd_r1_def]
  split
  · rfl
  · rfl

lemma cmd_r1_result (ctx : SDCard) (c a : Nat) (s : SPIState) :
    (__SDCard_command_r1 ctx c a s).1 =
      if (r1Poll ctx.timeout (cmdPre c a s)).1 &&& 0x80 ≠ 0 then SDCARD_TIMEOUT
      else SDCARD_SUCCESS := by
  rw [cmd_r1_def]
  split
  · simp_all
  · simp_all

lemma cmd_r1_stream (ctx : SDCard) (c a : Nat) (s : SPIState) :
    (__SDCard_command_r1 ctx c a s).2.2.stream = s.stream := by
  rw [cmd_r1_state, r1Poll_stream]; simp

lemma cmd_r1_counts (ctx : SDCard) (c a : Nat) (s : SPIState) :
    countBegin (__SDCard_command_r1 ctx c a s).2.2.trace = countBegin s.trace + 1 ∧
    countEnd (__SDCard_command_r1 ctx c a s).2.2.trace = countEnd s.trace := by
  rw [cmd_r1_state]
  obtain ⟨h1, h2⟩ := r1Poll_counts ctx.timeout (cmdPre c a s)
  rw [h1, h2]
  simp

lemma cmd_r1_pos_le (ctx : SDCard) (c a : Nat) (s : SPIState) :
    (__SDCard_command_r1 ctx c a s).2.2.pos ≤ s.pos + pollBound ctx.timeout := by
  rw [cmd_r1_state]
  have := r1Poll_pos_le ctx.timeout (cmdPre c a s)
  simpa using this

lemma SDCard_command_counts (ctx : SDCard) (c a l : Nat) (s : SPIState) :
    countBegin (SDCard_command ctx c a l s).2.2.trace = countBegin s.trace + 1 ∧
    countEnd (SDCard_command ctx c a l s).2.2.trace = countEnd s.trace + 1 := by
  obtain ⟨h1, h2⟩ := cmd_r1_counts ctx c a s
  simp only [SDCard_command]
  split
  · simp [h1, h2]
  · simp [h1, h2]

lemma SDCard_command_stream (ctx : SDCard) (c a l : Nat) (s : SPIState) :
    (SDCard_command ctx c a l s).2.2.stream = s.stream := by
  simp only [SDCard_command]
  split
  · simp [cmd_r1_stream]
  · simp [cmd_r1_stream]

/-! ### Lemmas about the ACMD41 negotiation loop, block read and init -/

lemma acmd41Attempt_counts (ctx : SDCard) (p : List Nat × SPIState) :
    countBegin (acmd41Attempt ctx p).2.trace = countBegin p.2.trace + 2 ∧
    countEnd (acmd41Attempt ctx p).2.trace = countEnd p.2.trace + 2 := by
  obtain ⟨h1, h2⟩ := SDCard_command_counts ctx 55 0 1 p.2
  obtain ⟨h3, h4⟩ := SDCard_command_counts ctx 41 (2 ^ 30) 5 (SDCard_command ctx 55 0 1 p.2).2.2
  simp only [acmd41Attempt]
  rw [h3, h4, h1, h2]
  omega

lemma acmd41Loop_balance (ctx : SDCard) : ∀ (n : Nat) (p : List Nat × SPIState),
    countBegin (acmd41Loop ctx n p).2.trace + countEnd p.2.trace =
      countEnd (acmd41Loop ctx n p).2.trace + countBegin p.2.trace := by
  intro n
  induction n with
  | zero => intro p; simp only [acmd41Loop]; omega
  | succ n ih =>
    intro p
    obtain ⟨h1, h2⟩ := acmd41Attempt_counts ctx p
    simp only [acmd41Loop]
    split
    · omega
    · have h := ih (acmd41Attempt ctx p)
      omega

lemma acmd41Loop_begin_le (ctx : SDCard) : ∀ (n : Nat) (p : List Nat × SPIState),
    countBegin (acmd41Loop ctx n p).2.trace ≤ countBegin p.2.trace + 2 * n := by
  intro n
  induction n with
  | zero => intro p; simp [acmd41Loop]
  | succ n ih =>
    intro p
    obtain ⟨h1, _⟩ := acmd41Attempt_counts ctx p
    simp only [acmd41Loop]
    split
    · omega
    · have h := ih (acmd41Attempt ctx p)
      omega

lemma acmd41Loop_stop (ctx : SDCard) : ∀ (k n : Nat) (p : List Nat × SPIState), k < n →
    (∀ i, i < k → ((acmd41Attempt ctx)^[i + 1] p).1.headD 0 ≠ 0) →
    ((acmd41Attempt ctx)^[k + 1] p).1.headD 0 = 0 →
    acmd41Loop ctx n p = (acmd41Attempt ctx)^[k + 1] p := by
  intro k
  induction k with
  | zero =>
    intro n p hn _ h0
    cases n with
    | zero => omega
    | succ n =>
      simp only [acmd41Loop]
      rw [if_pos (by simpa using h0)]
      simp
  | succ k ih =>
    intro n p hn hne h0
    cases n with
    | zero => omega
    | succ n =>
      simp only [acmd41Loop]
      rw [if_neg (by simpa using hne 0 (by omega))]
      rw [ih n (acmd41Attempt ctx p) (by omega)
        (by intro i hi
            have := hne (i + 1) (by omega)
            simpa [Function.iterate_succ_apply] using this)
        (by simpa [Function.iterate_succ_apply] using h0)]
      rw [← Function.iterate_succ_apply]

lemma acmd41Loop_exhaust (ctx : SDCard) : ∀ (n : Nat) (p : List Nat × SPIState),
    (∀ i, i < n → ((acmd41Attempt ctx)^[i + 1] p).1.headD 0 ≠ 0) →
    acmd41Loop ctx n p = (acmd41Attempt ctx)^[n] p := by
  intro n
  induction n with
  | zero => intro p _; rfl
  | succ n ih =>
    intro p h
    simp only [acmd41Loop]
    rw [if_neg (by simpa using h 0 (by omega))]
    rw [ih (acmd41Attempt ctx p)
      (by intro i hi
          have := h (i + 1) (by omega)
          simpa [Function.iterate_succ_apply] using this)]
    rw [← Function.iterate_succ_apply]

lemma SDCard_read512_counts (ctx : SDCard) (addr : Nat) (s : SPIState) :
    countBegin (SDCard_read512 ctx addr s).2.2.trace = countBegin s.trace + 1 ∧
    countEnd (SDCard_read512 ctx addr s).2.2.trace = countEnd s.trace + 1 := by
  obtain ⟨h1, h2⟩ := cmd_r1_counts ctx 17 addr s
  obtain ⟨h3, h4⟩ := readPoll_counts 3000 (__SDCard_command_r1 ctx 17 addr s).2.1
    (__SDCard_command_r1 ctx 17 addr s).2.2
  simp only [SDCard_read512]
  split
  · simp [h1, h2]
  · split
    · simp [h1, h2]
    · split
      · simp [h3, h4, h1, h2]
      · split
        · simp [h3, h4, h1, h2]
        · simp [h3, h4, h1, h2]

lemma SDCard_init_after_balance (ctx : SDCard) (b : List Nat) (s : SPIState) :
    countBegin (SDCard_init_after ctx b s).2.2.trace + countEnd s.trace =
      countEnd (SDCard_init_after ctx b s).2.2.trace + countBegin s.trace := by
  obtain ⟨h1, h2⟩ := SDCard_command_counts ctx 58 0 5 s
  simp only [SDCard_init_after]
  split
  · exact Nat.add_comm (countBegin s.trace) (countEnd s.trace)
  · split
    · rw [h1, h2]; omega
    · split
      · rw [h1, h2]; omega
      · split
        · rw [h1, h2]; omega
        · simp only [SPI_configure_trace, countBegin_configure, countEnd_configure]
          rw [h1, h2]; omega

/-- Two transport states have balanced transaction traces when the number of
begin-transaction events added between them equals the number of
end-transaction events added. -/
def traceBal (a b : SPIState) : Prop :=
  countBegin b.trace + countEnd a.trace = countEnd b.trace + countBegin a.trace

lemma traceBal_trans {a b c : SPIState} (h1 : traceBal a b) (h2 : traceBal b c) :
    traceBal a c := by
  unfold traceBal at *
  omega

lemma traceBal_command (ctx : SDCard) (c a l : Nat) (s : SPIState) :
    traceBal s (SDCard_command ctx c a l s).2.2 := by
  obtain ⟨h1, h2⟩ := SDCard_command_counts ctx c a l s
  unfold traceBal
  omega

lemma traceBal_loop (ctx : SDCard) (n : Nat) (p : List Nat × SPIState) :
    traceBal p.2 (acmd41Loop ctx n p).2 := by
  have h := acmd41Loop_balance ctx n p
  unfold traceBal
  omega

lemma traceBal_after (ctx : SDCard) (b : List Nat) (s : SPIState) :
    traceBal s (SDCard_init_after ctx b s).2.2 := by
  have h := SDCard_init_after_balance ctx b s
  unfold traceBal
  omega

lemma SDCard_init_balance (icd cd t : Nat) (s : SPIState) :
    countBegin (SDCard_init icd cd t s).2.2.trace + countEnd s.trace =
      countEnd (SDCard_init icd cd t s).2.2.trace + countBegin s.trace := by
  have hpre : traceBal s (SPI_end_transaction (SPI_dummy_clocks 10 (SPI_begin_transaction
      (SPI_configure (icd % 65536) (SPI_begin s))))) := by
    unfold traceBal
    simp
    omega
  have hmain : traceBal s (SDCard_init icd cd t s).2.2 := by
    simp only [SDCard_init]
    split
    · refine traceBal_trans ?_ (traceBal_command _ _ _ _ _)
      exact hpre
    · split
      · refine traceBal_trans ?_ (traceBal_command _ _ _ _ _)
        refine traceBal_trans ?_ (traceBal_command _ _ _ _ _)
        exact hpre
      · refine traceBal_trans ?_ (traceBal_after _ _ _)
        refine traceBal_trans ?_ (traceBal_loop _ _ _)
        refine traceBal_trans ?_ (traceBal_command _ _ _ _ _)
        refine traceBal_trans ?_ (traceBal_command _ _ _ _ _)
        exact hpre
  unfold traceBal at hmain
  exact hmain

lemma or_one_mod_two (y : Nat) : (y ||| 1) % 2 = 1 := by
  rw [← Nat.and_one_is_mod]
  rw [Nat.and_comm, Nat.and_or_distrib_left]
  simp
  rcases Nat.mod_two_eq_zero_or_one y with h | h <;> rw [h] <;> rfl

/-! ### Result-code membership lemmas -/

lemma cmd_r1_result_mem (ctx : SDCard) (c a : Nat) (s : SPIState) :
    (__SDCard_command_r1 ctx c a s).1 = SDCARD_SUCCESS ∨
    (__SDCard_command_r1 ctx c a s).1 = SDCARD_TIMEOUT := by
  rw [cmd_r1_result]
  split
  · right; rfl
  · left; rfl

lemma SDCard_command_result_mem (ctx : SDCard) (c a l : Nat) (s : SPIState) :
    (SDCard_command ctx c a l s).1 = SDCARD_SUCCESS ∨
    (SDCard_command ctx c a l s).1 = SDCARD_TIMEOUT := by
  simp only [SDCard_command]
  split
  · exact cmd_r1_result_mem ctx c a s
  · left; rfl

lemma SDCard_read512_result_mem (ctx : SDCard) (addr : Nat) (s : SPIState) :
    (SDCard_read512 ctx addr s).1 = SDCARD_SUCCESS ∨
    (SDCard_read512 ctx addr s).1 = SDCARD_TIMEOUT ∨
    (SDCard_read512 ctx addr s).1 = SDCARD_BADRESPONSE := by
  simp only [SDCard_read512]
  split
  · rcases cmd_r1_result_mem ctx 17 addr s with h | h
    · left; exact h
    · right; left; exact h
  · split
    · right; right; rfl
    · split
      · right; left; rfl
      · split
        · left; rfl
        · right; right; rfl

lemma SDCard_init_result_mem (icd cd t : Nat) (s : SPIState) :
    (SDCard_init icd cd t s).1 = SDCARD_SUCCESS ∨
    (SDCard_init icd cd t s).1 = SDCARD_TIMEOUT ∨
    (SDCard_init icd cd t s).1 = SDCARD_NOTSUPPORTED ∨
    (SDCard_init icd cd t s).1 = SDCARD_BADRESPONSE := by
  simp only [SDCard_init, SDCard_init_after]
  split
  · right; left; rfl
  · split
    · right; right; left; rfl
    · split
      · right; left; rfl
      · split
        · right; right; right; rfl
        · split
          · right; right; left; rfl
          · split
            · right; right; right; rfl
            · left; rfl

/-! ### Claim theorems (first batch) -/

/-- Claim C4: for every input and transport behavior, each public operation
(`SDCard_init`, `SDCard_command`, `SDCard_read512`) returns only one of
success, timeout, not-supported or bad-response, and the declared
`SDCARD_CRC_ERROR` code is never produced. -/
theorem claim_C4_result_codes : ∀ (ctx : SDCard) (c a l addr icd cd t : Nat)
    (s1 s2 s3 : SPIState),
    ((SDCard_init icd cd t s1).1 = SDCARD_SUCCESS ∨
      (SDCard_init icd cd t s1).1 = SDCARD_TIMEOUT ∨
      (SDCard_init icd cd t s1).1 = SDCARD_NOTSUPPORTED ∨
      (SDCard_init icd cd t s1).1 = SDCARD_BADRESPONSE) ∧
    (SDCard_init icd cd t s1).1 ≠ SDCARD_CRC_ERROR ∧
    ((SDCard_command ctx c a l s2).1 = SDCARD_SUCCESS ∨
      (SDCard_command ctx c a l s2).1 = SDCARD_TIMEOUT ∨
      (SDCard_command ctx c a l s2).1 = SDCARD_NOTSUPPORTED ∨
      (SDCard_command ctx c a l s2).1 = SDCARD_BADRESPONSE) ∧
    (SDCard_command ctx c a l s2).1 ≠ SDCARD_CRC_ERROR ∧
    ((SDCard_read512 ctx addr s3).1 = SDCARD_SUCCESS ∨
      (SDCard_read512 ctx addr s3).1 = SDCARD_TIMEOUT ∨
      (SDCard_read512 ctx addr s3).1 = SDCARD_NOTSUPPORTED ∨
      (SDCard_read512 ctx addr s3).1 = SDCARD_BADRESPONSE) ∧
    (SDCard_read512 ctx addr s3).1 ≠ SDCARD_CRC_ERROR := by
  intro ctx c a l addr icd cd t s1 s2 s3
  have hi := SDCard_init_result_mem icd cd t s1
  have hc := SDCard_command_result_mem ctx c a l s2
  have hr := SDCard_read512_result_mem ctx addr s3
  refine ⟨hi, ?_, ?_, ?_, ?_, ?_⟩
  · rcases hi with h | h | h | h <;> rw [h] <;> decide
  · rcases hc with h | h
    · left; exact h
    · right; left; exact h
  · rcases hc with h | h <;> rw [h] <;> decide
  · rcases hr with h | h | h
    · left; exact h
    · right; left; exact h
    · right; right; right; exact h
  · rcases hr with h | h | h <;> rw [h] <;> decide

/-- Claim C5: bus-transaction acquisitions and releases are balanced 1:1 on
every outcome: `SDCard_command` and `SDCard_read512` each add exactly one
begin-transaction and one end-transaction event on every exit path, and
`SDCard_init` adds equally many begin and end events. -/
theorem claim_C5_transaction_balance : ∀ (ctx : SDCard) (c a l addr icd cd t : Nat)
    (s1 s2 s3 : SPIState),
    countBegin (SDCard_command ctx c a l s1).2.2.trace = countBegin s1.trace + 1 ∧
    countEnd (SDCard_command ctx c a l s1).2.2.trace = countEnd s1.trace + 1 ∧
    countBegin (SDCard_read512 ctx addr s2).2.2.trace = countBegin s2.trace + 1 ∧
    countEnd (SDCard_read512 ctx addr s2).2.2.trace = countEnd s2.trace + 1 ∧
    countBegin (SDCard_init icd cd t s3).2.2.trace + countEnd s3.trace =
      countEnd (SDCard_init icd cd t s3).2.2.trace + countBegin s3.trace := by
  intro ctx c a l addr icd cd t s1 s2 s3
  exact ⟨(SDCard_command_counts ctx c a l s1).1, (SDCard_command_counts ctx c a l s1).2,
    (SDCard_read512_counts ctx addr s2).1, (SDCard_read512_counts ctx addr s2).2,
    SDCard_init_balance icd cd t s3⟩

/-- Claim C6: `SDCard_crc` is the pure bit-serial CRC with polynomial 0x89
over the given count of bytes, and the reset frame's checksum byte with stop
bit, `SDCard_crc([0x40,0,0,0,0], 5) | 0x01`, equals the published value 0x95
(also the last byte of the CMD0 frame). -/
theorem claim_C6_crc_vector :
    SDCard_crc [0x40, 0x00, 0x00, 0x00, 0x00] 5 ||| 0x01 = 0x95 ∧
    (buildFrame 0 0).getD 5 0 = 0x95 ∧
    ∀ (buf : List Nat) (count : Nat),
      SDCard_crc buf count = SDCard_crc (List.take count buf) count := by
  refine ⟨by decide, by decide, ?_⟩
  intro buf count
  simp [SDCard_crc, List.take_take]

/-- Claim C7: for every command index and 32-bit argument, the 6-byte frame is
byte 0 = command OR 0x40, bytes 1-4 = the argument in big-endian order, and
byte 5 = the checksum of the first 5 bytes with its lowest bit forced to 1. -/
theorem claim_C7_frame_layout : ∀ (c a : Nat),
    (buildFrame c a).length = 6 ∧
    (buildFrame c a).getD 0 0 = c % 256 ||| 0x40 ∧
    (buildFrame c a).getD 1 0 * 2 ^ 24 + (buildFrame c a).getD 2 0 * 2 ^ 16 +
      (buildFrame c a).getD 3 0 * 2 ^ 8 + (buildFrame c a).getD 4 0 = a % 2 ^ 32 ∧
    (buildFrame c a).getD 5 0 = SDCard_crc ((buildFrame c a).take 5) 5 ||| 0x01 ∧
    (buildFrame c a).getD 5 0 % 2 = 1 := by
  intro c a
  refine ⟨rfl, rfl, ?_, ?_, ?_⟩
  · simp only [buildFrame, List.getD, List.get?, Option.getD]
    have h : a % 2 ^ 32 < 2 ^ 32 := Nat.mod_lt _ (by norm_num)
    omega
  · simp [buildFrame]
  · exact or_one_mod_two _

@[simp] lemma sFF_stream (i : Nat) : sFF.stream i = 0xff := rfl

/-- Claim C3 counterexample: with the configured timeout bound 0 and a
transport that only returns high-bit bytes, the R1 exchange performs 65536
receive attempts (the uint16 counter wraps below zero), not the configured 0,
so the exchange does not always stop after exactly the configured number of
attempts. -/
theorem claim_C3_counterexample :
    (⟨0, 0⟩ : SDCard).timeout = 0 ∧
    (__SDCard_command_r1 ⟨0, 0⟩ 0 0 sFF).1 = SDCARD_TIMEOUT ∧
    (__SDCard_command_r1 ⟨0, 0⟩ 0 0 sFF).2.2.pos = sFF.pos + 65536 ∧
    (65536 : Nat) ≠ 0 := by
  have hhigh : ∀ i, (cmdPre 0 0 sFF).stream i % 256 &&& 0x80 ≠ 0 := by
    intro i
    rw [cmdPre_stream, sFF_stream]
    decide
  obtain ⟨h1, h2⟩ := r1Poll_high (⟨0, 0⟩ : SDCard).timeout (cmdPre 0 0 sFF) hhigh
  have hcond : (r1Poll (⟨0, 0⟩ : SDCard).timeout (cmdPre 0 0 sFF)).1 &&& 0x80 ≠ 0 := by
    rw [h1, cmdPre_stream, sFF_stream]
    decide
  refine ⟨rfl, ?_, ?_, by decide⟩
  · rw [cmd_r1_def, if_pos hcond]
  · have hpb : pollBound (⟨0, 0⟩ : SDCard).timeout = 65536 := by decide
    exact (congrArg SPIState.pos (congrArg Prod.snd (cmd_r1_state ⟨0, 0⟩ 0 0 sFF))).trans
      (h2.trans (by rw [cmdPre_pos, hpb]))

/-- Claim C3 (amended): provided the configured timeout bound is at least 1
(as a uint16 it is below 65536), the R1 exchange on a transport that only
returns high-bit-set bytes returns timeout after exactly the configured
number of receive attempts, never fewer and never more, stores the last byte
observed into the status output, and `SDCard_command` propagates the timeout;
if a byte with the high bit clear arrives within the budget the poll stops
immediately and returns success with that byte.  The unamended claim fails at
configured bound 0, where the counter wraps and 65536 attempts occur. -/
theorem claim_C3_amended : ∀ (ctx : SDCard) (c a l : Nat) (s : SPIState),
    1 ≤ ctx.timeout → ctx.timeout < 65536 →
    ((∀ i, s.stream i % 256 &&& 0x80 ≠ 0) →
      (__SDCard_command_r1 ctx c a s).1 = SDCARD_TIMEOUT ∧
      (__SDCard_command_r1 ctx c a s).2.2.pos = s.pos + ctx.timeout ∧
      (__SDCard_command_r1 ctx c a s).2.1 = s.stream (s.pos + (ctx.timeout - 1)) % 256 ∧
      (SDCard_command ctx c a l s).1 = SDCARD_TIMEOUT) ∧
    (∀ k, k < ctx.timeout →
      (∀ i, i < k → s.stream (s.pos + i) % 256 &&& 0x80 ≠ 0) →
      s.stream (s.pos + k) % 256 &&& 0x80 = 0 →
      (__SDCard_command_r1 ctx c a s).1 = SDCARD_SUCCESS ∧
      (__SDCard_command_r1 ctx c a s).2.1 = s.stream (s.pos + k) % 256 ∧
      (__SDCard_command_r1 ctx c a s).2.2.pos = s.pos + k + 1) := by
  intro ctx c a l s ht1 ht2
  have hb := pollBound_of_lt ctx.timeout ht1 ht2
  constructor
  · intro h
    have hhigh : ∀ i, (cmdPre c a s).stream i % 256 &&& 0x80 ≠ 0 := by
      intro i
      rw [cmdPre_stream]
      exact h i
    obtain ⟨h1, h2⟩ := r1Poll_high ctx.timeout (cmdPre c a s) hhigh
    rw [cmdPre_stream, cmdPre_pos, hb] at h1
    rw [cmdPre_pos, hb] at h2
    have hcond : (r1Poll ctx.timeout (cmdPre c a s)).1 &&& 0x80 ≠ 0 := by
      rw [h1]
      exact h _
    have hcmd : (__SDCard_command_r1 ctx c a s).1 = SDCARD_TIMEOUT := by
      rw [cmd_r1_def, if_pos hcond]
    refine ⟨hcmd, ?_, ?_, ?_⟩
    · rw [cmd_r1_def, if_pos hcond]
      show (r1Poll ctx.timeout (cmdPre c a s)).2.pos = s.pos + ctx.timeout
      exact h2
    · rw [cmd_r1_def, if_pos hcond]
      show (r1Poll ctx.timeout (cmdPre c a s)).1 = s.stream (s.pos + (ctx.timeout - 1)) % 256
      exact h1
    · simp only [SDCard_command]
      rw [if_pos (by rw [hcmd]; decide)]
      exact hcmd
  · intro k hk hhigh hlow
    obtain ⟨h1, h2⟩ := r1Poll_find ctx.timeout k (cmdPre c a s) (by rw [hb]; exact hk)
      (by intro i hi
          rw [cmdPre_stream, cmdPre_pos]
          exact hhigh i hi)
      (by rw [cmdPre_stream, cmdPre_pos]
          exact hlow)
    rw [cmdPre_stream, cmdPre_pos] at h1
    rw [cmdPre_pos] at h2
    have hcond : ¬((r1Poll ctx.timeout (cmdPre c a s)).1 &&& 0x80 ≠ 0) := by
      rw [h1]
      exact fun hx => hx hlow
    refine ⟨?_, ?_, ?_⟩
    · rw [cmd_r1_def, if_neg hcond]
    · rw [cmd_r1_def, if_neg hcond]
      show (r1Poll ctx.timeout (cmdPre c a s)).1 = s.stream (s.pos + k) % 256
      exact h1
    · rw [cmd_r1_def, if_neg hcond]
      show (r1Poll ctx.timeout (cmdPre c a s)).2.pos = s.pos + k + 1
      exact h2

/-- Witness for the amended claim C3 at concrete inputs: configured timeout 1
on the all-0xff transport gives timeout after exactly one receive, and the
timeout propagates through `SDCard_command`. -/
theorem claim_C3_amended_witness :
    1 ≤ (⟨0, 1⟩ : SDCard).timeout ∧
    (__SDCard_command_r1 ⟨0, 1⟩ 0 0 sFF).1 = SDCARD_TIMEOUT ∧
    (__SDCard_command_r1 ⟨0, 1⟩ 0 0 sFF).2.2.pos = sFF.pos + 1 ∧
    (SDCard_command ⟨0, 1⟩ 0 0 5 sFF).1 = SDCARD_TIMEOUT := by
  obtain ⟨ha, hpos, _, hcmd⟩ := (claim_C3_amended ⟨0, 1⟩ 0 0 5 sFF (by decide) (by decide)).1
    (by intro i; rw [sFF_stream]; decide)
  exact ⟨by decide, ha, hpos, hcmd⟩

/-- Claim C10: the uint16 poll counter of `__SDCard_command_r1` is
decremented before the comparison with zero, so with a configured bound of 0
the counter wraps modulo 2^16 and 65536 receive attempts are made instead of
the poll stopping at once; the attempt count equals the configured bound
exactly when that bound (mod 2^16) is at least 1. -/
theorem claim_C10_timeout_wrap : ∀ (ctx : SDCard) (c a : Nat) (s : SPIState),
    (∀ i, s.stream i % 256 &&& 0x80 ≠ 0) →
    (ctx.timeout % 65536 = 0 → (__SDCard_command_r1 ctx c a s).2.2.pos = s.pos + 65536) ∧
    (1 ≤ ctx.timeout % 65536 →
      (__SDCard_command_r1 ctx c a s).2.2.pos = s.pos + ctx.timeout % 65536) ∧
    (__SDCard_command_r1 ctx c a s).1 = SDCARD_TIMEOUT := by
  intro ctx c a s h
  have hhigh : ∀ i, (cmdPre c a s).stream i % 256 &&& 0x80 ≠ 0 := by
    intro i
    rw [cmdPre_stream]
    exact h i
  obtain ⟨h1, h2⟩ := r1Poll_high ctx.timeout (cmdPre c a s) hhigh
  have hcond : (r1Poll ctx.timeout (cmdPre c a s)).1 &&& 0x80 ≠ 0 := by
    rw [h1, cmdPre_stream]
    exact h _
  have hpos : (__SDCard_command_r1 ctx c a s).2.2.pos = s.pos + pollBound ctx.timeout := by
    rw [cmd_r1_def, if_pos hcond]
    show (r1Poll ctx.timeout (cmdPre c a s)).2.pos = s.pos + pollBound ctx.timeout
    rw [h2, cmdPre_pos]
  refine ⟨?_, ?_, ?_⟩
  · intro h0
    rw [hpos]
    unfold pollBound
    rw [if_pos h0]
  · intro h0
    rw [hpos]
    unfold pollBound
    rw [if_neg (by omega)]
  · rw [cmd_r1_def, if_pos hcond]

/-- Witness for claim C10 at concrete inputs: on the all-0xff transport a
configured bound of 0 gives 65536 receive attempts and a configured bound of
3 gives exactly 3. -/
theorem claim_C10_timeout_wrap_witness :
    (__SDCard_command_r1 ⟨0, 0⟩ 0 0 sFF).2.2.pos = sFF.pos + 65536 ∧
    (__SDCard_command_r1 ⟨0, 3⟩ 0 0 sFF).2.2.pos = sFF.pos + 3 := by
  have hs : ∀ i, sFF.stream i % 256 &&& 0x80 ≠ 0 := by intro i; rw [sFF_stream]; decide
  exact ⟨(claim_C10_timeout_wrap ⟨0, 0⟩ 0 0 sFF hs).1 (by decide),
    (claim_C10_timeout_wrap ⟨0, 3⟩ 0 0 sFF hs).2.1 (by decide)⟩

/-- Claim C1 counterexample: with the configured timeout bound 1, a block
read whose R1 exchange succeeds immediately still performs 3000 data-token
poll receives (positions 1 through 3000) before timing out, so the token
poll is not bounded by the Session Context's configured timeout value. -/
theorem claim_C1_counterexample :
    (⟨0, 1⟩ : SDCard).timeout = 1 ∧
    (SDCard_read512 ⟨0, 1⟩ 0 sR1).1 = SDCARD_TIMEOUT ∧
    (SDCard_read512 ⟨0, 1⟩ 0 sR1).2.2.pos = 3001 ∧
    ¬(3001 - 1 ≤ (⟨0, 1⟩ : SDCard).timeout) := by
  have he1 : (__SDCard_command_r1 ⟨0, 1⟩ 17 0 sR1).1 = SDCARD_SUCCESS := by decide
  have he2 : (__SDCard_command_r1 ⟨0, 1⟩ 17 0 sR1).2.1 = 0 := by decide
  have hepos : (__SDCard_command_r1 ⟨0, 1⟩ 17 0 sR1).2.2.pos = 1 := by decide
  have hestream := cmd_r1_stream ⟨0, 1⟩ 17 0 sR1
  have hff : ∀ i, i < 3000 →
      (__SDCard_command_r1 ⟨0, 1⟩ 17 0 sR1).2.2.stream
        ((__SDCard_command_r1 ⟨0, 1⟩ 17 0 sR1).2.2.pos + i) % 256 = 0xff := by
    intro i hi
    rw [hestream, hepos]
    show sR1.stream (1 + i) % 256 = 0xff
    simp only [sR1]
    rw [if_neg (by omega)]
  obtain ⟨hp1, hp2, hp3⟩ := readPoll_ff 3000 (__SDCard_command_r1 ⟨0, 1⟩ 17 0 sR1).2.1
    (__SDCard_command_r1 ⟨0, 1⟩ 17 0 sR1).2.2 hff
  have hread : SDCard_read512 ⟨0, 1⟩ 0 sR1 =
      (SDCARD_TIMEOUT, [], SPI_end_transaction
        (readPoll (__SDCard_command_r1 ⟨0, 1⟩ 17 0 sR1).2.1 3000
          (__SDCard_command_r1 ⟨0, 1⟩ 17 0 sR1).2.2).2) := by
    simp only [SDCard_read512]
    rw [if_neg (by rw [he1]; exact fun hx => hx rfl)]
    rw [if_neg (by rw [he2]; exact fun hx => hx rfl)]
    rw [if_pos (by rw [hp3]; rfl)]
  have hread2 : (SDCard_read512 ⟨0, 1⟩ 0 sR1).2.2 = SPI_end_transaction
      (readPoll (__SDCard_command_r1 ⟨0, 1⟩ 17 0 sR1).2.1 3000
        (__SDCard_command_r1 ⟨0, 1⟩ 17 0 sR1).2.2).2 := by
    rw [hread]
  refine ⟨rfl, ?_, ?_, by decide⟩
  · rw [hread]
  · rw [hread2, SPI_end_transaction_pos, hp1, hepos]

/-- Claim C1 (amended): the R1 status poll in `__SDCard_command_r1` is the
only loop bounded by the Session Context's configured timeout (by at most
`ctx.timeout` receives when that bound is in 1..65535); the block-read data
token poll and the ACMD41 retry loop are each bounded by the fixed constant
3000 (at most 3000 receives, respectively at most 3000 attempts each adding
two bus transactions) independent of the configured timeout. -/
theorem claim_C1_amended : ∀ (ctx : SDCard) (c a r : Nat) (s : SPIState)
    (p : List Nat × SPIState),
    (1 ≤ ctx.timeout → ctx.timeout < 65536 →
      (__SDCard_command_r1 ctx c a s).2.2.pos ≤ s.pos + ctx.timeout) ∧
    (readPoll r 3000 s).2.pos ≤ s.pos + 3000 ∧
    countBegin (acmd41Loop ctx 3000 p).2.trace ≤ countBegin p.2.trace + 2 * 3000 := by
  intro ctx c a r s p
  refine ⟨?_, readPoll_pos_le 3000 r s, acmd41Loop_begin_le ctx 3000 p⟩
  intro h1 h2
  have h := cmd_r1_pos_le ctx c a s
  rw [pollBound_of_lt ctx.timeout h1 h2] at h
  exact h

/-- Witness for the amended claim C1 at concrete inputs. -/
theorem claim_C1_amended_witness :
    1 ≤ (⟨0, 1⟩ : SDCard).timeout ∧
    (__SDCard_command_r1 ⟨0, 1⟩ 0 0 sFF).2.2.pos ≤ sFF.pos + (⟨0, 1⟩ : SDCard).timeout := by
  exact ⟨by decide,
    (claim_C1_amended ⟨0, 1⟩ 0 0 0 sFF ([], sFF)).1 (by decide) (by decide)⟩

/-- Claim C2: `SDCard_read512` first runs the R1 exchange for command 17; if
that exchange errors the error propagates; a non-zero status byte gives
bad-response; otherwise it polls up to 3000 received bytes for a non-0xff
value — none found gives timeout, the 0xfe data-start token gives success
with exactly the next 512 stream bytes in the destination buffer, and any
other byte gives bad-response. -/
theorem claim_C2_read512 : ∀ (ctx : SDCard) (addr : Nat) (s : SPIState) (r r1 : Nat)
    (s1 : SPIState), __SDCard_command_r1 ctx 17 addr s = (r, r1, s1) →
    (r ≠ SDCARD_SUCCESS → (SDCard_read512 ctx addr s).1 = r) ∧
    (r = SDCARD_SUCCESS → r1 ≠ 0 → (SDCard_read512 ctx addr s).1 = SDCARD_BADRESPONSE) ∧
    (r = SDCARD_SUCCESS → r1 = 0 →
      (∀ i, i < 3000 → s1.stream (s1.pos + i) % 256 = 0xff) →
      (SDCard_read512 ctx addr s).1 = SDCARD_TIMEOUT) ∧
    (∀ k, r = SDCARD_SUCCESS → r1 = 0 → k < 3000 →
      (∀ i, i < k → s1.stream (s1.pos + i) % 256 = 0xff) →
      s1.stream (s1.pos + k) % 256 = 0xfe →
      (SDCard_read512 ctx addr s).1 = SDCARD_SUCCESS ∧
      (SDCard_read512 ctx addr s).2.1 =
        (List.range 512).map (fun i => s1.stream (s1.pos + k + 1 + i) % 256) ∧
      (SDCard_read512 ctx addr s).2.1.length = 512) ∧
    (∀ k, r = SDCARD_SUCCESS → r1 = 0 → k < 3000 →
      (∀ i, i < k → s1.stream (s1.pos + i) % 256 = 0xff) →
      s1.stream (s1.pos + k) % 256 ≠ 0xff →
      s1.stream (s1.pos + k) % 256 ≠ 0xfe →
      (SDCard_read512 ctx addr s).1 = SDCARD_BADRESPONSE) := by
  intro ctx addr s r r1 s1 h
  simp only [SDCard_read512, h]
  refine ⟨?_, ?_, ?_, ?_, ?_⟩
  · intro hr
    rw [if_pos hr]
  · intro hr hr1
    rw [if_neg (fun hx => hx hr), if_pos hr1]
  · intro hr hr1 hff
    obtain ⟨hp1, hp2, hp3⟩ := readPoll_ff 3000 r1 s1 hff
    rw [if_neg (fun hx => hx hr), if_neg (fun hx => hx hr1), if_pos (by rw [hp3]; rfl)]
  · intro k hr hr1 hk hff hfe
    obtain ⟨hp1, hp2, hp3⟩ := readPoll_find k 3000 r1 s1 hk hff (by rw [hfe]; decide)
    rw [if_neg (fun hx => hx hr), if_neg (fun hx => hx hr1)]
    rw [if_neg (by rw [hp1, hfe]; decide), if_pos (by rw [hp1]; exact hfe)]
    refine ⟨rfl, ?_, ?_⟩
    · rw [SPI_receive_fst, hp3, hp2]
    · show ((List.range 512).map _).length = 512
      rw [List.length_map, List.length_range]
  · intro k hr hr1 hk hff hne hnfe
    obtain ⟨hp1, hp2, hp3⟩ := readPoll_find k 3000 r1 s1 hk hff hne
    rw [if_neg (fun hx => hx hr), if_neg (fun hx => hx hr1)]
    rw [if_neg (by rw [hp1]; exact hne), if_neg (by rw [hp1]; exact hnfe)]

/-- Witness for claim C2 at concrete inputs: a zero status byte followed
immediately by the 0xfe token yields success and a 512-byte buffer. -/
theorem claim_C2_read512_witness :
    (__SDCard_command_r1 ⟨0, 1⟩ 17 0 sTok).1 = SDCARD_SUCCESS ∧
    (__SDCard_command_r1 ⟨0, 1⟩ 17 0 sTok).2.1 = 0 ∧
    (SDCard_read512 ⟨0, 1⟩ 0 sTok).1 = SDCARD_SUCCESS ∧
    (SDCard_read512 ⟨0, 1⟩ 0 sTok).2.1.length = 512 := by
  have h := claim_C2_read512 ⟨0, 1⟩ 0 sTok
    (__SDCard_command_r1 ⟨0, 1⟩ 17 0 sTok).1
    (__SDCard_command_r1 ⟨0, 1⟩ 17 0 sTok).2.1
    (__SDCard_command_r1 ⟨0, 1⟩ 17 0 sTok).2.2 rfl
  obtain ⟨hs, _, hlen⟩ := h.2.2.2.1 0 (by decide) (by decide) (by decide)
    (by intro i hi; omega) (by decide)
  exact ⟨by decide, by decide, hs, hlen⟩

/-- Claim C8: every ACMD41 attempt issues CMD55 then CMD41 (adding two bus
transactions), the negotiation performs at most 3000 attempts, stops with the
first attempt whose status byte is all-zero regardless of prior non-zero
responses, and when all 3000 attempts end non-zero the post-loop code returns
timeout. -/
theorem claim_C8_acmd41 : ∀ (ctx : SDCard) (p : List Nat × SPIState) (k : Nat),
    countBegin (acmd41Attempt ctx p).2.trace = countBegin p.2.trace + 2 ∧
    countBegin (acmd41Loop ctx 3000 p).2.trace ≤ countBegin p.2.trace + 2 * 3000 ∧
    (k < 3000 →
      (∀ i, i < k → ((acmd41Attempt ctx)^[i + 1] p).1.headD 0 ≠ 0) →
      ((acmd41Attempt ctx)^[k + 1] p).1.headD 0 = 0 →
      acmd41Loop ctx 3000 p = (acmd41Attempt ctx)^[k + 1] p) ∧
    ((∀ i, i < 3000 → ((acmd41Attempt ctx)^[i + 1] p).1.headD 0 ≠ 0) →
      acmd41Loop ctx 3000 p = (acmd41Attempt ctx)^[3000] p ∧
      SDCard_init_after ctx (acmd41Loop ctx 3000 p).1 (acmd41Loop ctx 3000 p).2 =
        (SDCARD_TIMEOUT, ctx, (acmd41Loop ctx 3000 p).2)) := by
  intro ctx p k
  refine ⟨(acmd41Attempt_counts ctx p).1, acmd41Loop_begin_le ctx 3000 p, ?_, ?_⟩
  · intro hk hne h0
    exact acmd41Loop_stop ctx k 3000 p hk hne h0
  · intro hall
    have hL := acmd41Loop_exhaust ctx 3000 p hall
    have hhead : (acmd41Loop ctx 3000 p).1.headD 0 ≠ 0 := by
      rw [hL]
      exact hall 2999 (by omega)
    refine ⟨hL, ?_⟩
    simp only [SDCard_init_after]
    rw [if_pos hhead]

/-- Witness for claim C8 at concrete inputs: the loop stops after the first
attempt when the simulated card immediately answers an all-zero status. -/
theorem claim_C8_acmd41_witness :
    ((acmd41Attempt ⟨0, 1⟩)^[0 + 1] ([0, 0, 0, 0, 0], sAcc)).1.headD 0 = 0 ∧
    acmd41Loop ⟨0, 1⟩ 3000 ([0, 0, 0, 0, 0], sAcc) =
      (acmd41Attempt ⟨0, 1⟩)^[0 + 1] ([0, 0, 0, 0, 0], sAcc) := by
  have h0 : ((acmd41Attempt ⟨0, 1⟩)^[0 + 1] ([0, 0, 0, 0, 0], sAcc)).1.headD 0 = 0 := by
    decide
  exact ⟨h0, (claim_C8_acmd41 ⟨0, 1⟩ ([0, 0, 0, 0, 0], sAcc) 0).2.2.1 (by decide)
    (by intro i hi; omega) h0⟩

/-- Claim C9: `SDCard_init` stores its 16-bit clock-delay parameter into the
8-bit context field, so the session keeps `clock_delay % 256`, and the
speed-up reconfiguration after a successful handshake uses that truncated
divisor. -/
theorem claim_C9_clock_truncation : ∀ (icd cd t : Nat) (s : SPIState),
    (SDCard_init icd cd t s).2.1.clock_delay = cd % 256 ∧
    ((SDCard_init icd cd t s).1 = SDCARD_SUCCESS →
      latestConfig (SDCard_init icd cd t s).2.2.trace = some (cd % 256)) := by
  intro icd cd t s
  constructor
  · simp only [SDCard_init, SDCard_init_after]
    split
    · rfl
    · split
      · rfl
      · split
        · rfl
        · split
          · rfl
          · split
            · rfl
            · split
              · rfl
              · rfl
  · simp only [SDCard_init, SDCard_init_after]
    split
    · intro h; simp [SDCARD_TIMEOUT, SDCARD_SUCCESS] at h
    · split
      · intro h; simp [SDCARD_NOTSUPPORTED, SDCARD_SUCCESS] at h
      · split
        · intro h; simp [SDCARD_TIMEOUT, SDCARD_SUCCESS] at h
        · split
          · intro h; simp [SDCARD_BADRESPONSE, SDCARD_SUCCESS] at h
          · split
            · intro h; simp [SDCARD_NOTSUPPORTED, SDCARD_SUCCESS] at h
            · split
              · intro h; simp [SDCARD_BADRESPONSE, SDCARD_SUCCESS] at h
              · intro _
                rfl

set_option maxRecDepth 200000 in
/-- Witness for claim C9 at concrete inputs: a successful handshake with the
operating divisor 300 reconfigures the transport with 300 % 256 = 44. -/
theorem claim_C9_clock_truncation_witness :
    (SDCard_init 0 300 1 sInitOk).1 = SDCARD_SUCCESS ∧
    latestConfig (SDCard_init 0 300 1 sInitOk).2.2.trace = some 44 := by
  have h : (SDCard_init 0 300 1 sInitOk).1 = SDCARD_SUCCESS := by decide
  have h2 := (claim_C9_clock_truncation 0 300 1 sInitOk).2 h
  rw [show (300 : Nat) % 256 = 44 from rfl] at h2
  exact ⟨h, h2⟩
